import Mathlib

/-!
Shallow embedding of the MCP JSON-RPC gateway (`server/main.py` and
`server/github_client.py`): JSON argument values, the pydantic argument
validators, the path sandbox, the `files_read` byte-window logic, the
tool dispatch of the `rpc` endpoint, the exception-to-error-code mapping
of its `try/except` chain, the `random_pokemon` table filter, and the
`github_get_file` content-decoding pipeline.

Conventions of the embedding:
* Python dicts carrying JSON values become `RawArgs` (association lists of
  `JVal`); missing keys are `none`.
* Machine file contents are `List Nat` (byte values `< 256`).
* Filesystem state is a lookup function from resolved path components to
  an entry (absent / directory / file with bytes); `pathlib.Path.resolve`
  is modelled as lexical normalisation of `.`/`..` components (symlink
  chasing is outside the repository's code).
-/

set_option autoImplicit false

namespace MCPServer

/-- A JSON value as carried inside a JSON-RPC body (`body`, `params`,
`arguments` in `main.py`). -/
inductive JVal where
  | null
  | bool (b : Bool)
  | int (n : Int)
  | str (s : String)
  | arr (xs : List JVal)
  | obj (kvs : List (String × JVal))

/-- A raw, untrusted argument mapping (a Python dict of JSON values). -/
def RawArgs := List (String × JVal)

/-- `dict.get(key)`: first binding of `key`, if present. -/
def rawGet (raw : RawArgs) (key : String) : Option JVal :=
  (List.find? (fun kv => kv.1 == key) raw).map (fun kv => kv.2)

/-! ## Path sandbox (`_resolve_safe`, main.py lines 256-264) -/

/-- A character stripped by `path_str.strip("/\\")`. -/
def isSepChar (c : Char) : Bool := c == '/' || c == '\\'

/-- Python `str.strip("/\\")`: drop the separator characters from both
ends of the string. -/
def stripSeps (s : String) : String :=
  String.mk (((s.toList.dropWhile isSepChar).reverse.dropWhile isSepChar).reverse)

/-- Split a character list at every `/`. -/
def splitOnSlashAux : List Char → List Char → List (List Char)
  | [], cur => [cur.reverse]
  | c :: cs, cur =>
    if c = '/' then cur.reverse :: splitOnSlashAux cs [] else splitOnSlashAux cs (c :: cur)

/-- Join strings with a separator (`sep.join(parts)`). -/
def strJoin (sep : String) : List String → String
  | [] => ""
  | c :: rest => rest.foldl (fun acc x => acc ++ sep ++ x) c

/-- `a` is a prefix of `b`, character-wise (`str.startswith`). -/
def isStrPrefix (a b : String) : Bool := a.toList.isPrefixOf b.toList

/-- ASCII lowercasing (`str.lower()`; all strings involved are ASCII). -/
def pyLower (s : String) : String := String.mk (s.toList.map Char.toLower)

/-- Split a relative path string into its components, dropping empty and
`.` components exactly as `pathlib.Path` does on construction. -/
def pathComponents (s : String) : List String :=
  ((splitOnSlashAux s.toList []).map String.mk).filter (fun c => c != "" && c != ".")

/-- Lexical `..`-resolution performed by `Path.resolve()`: a `..`
component removes the previous component (at the filesystem root it is a
no-op, as `/.. = /`). The root components contain no `..` because
`FILES_ROOT_PATH` is itself already resolved. -/
def normalizeComponents (comps : List String) : List String :=
  comps.foldl (fun acc c => if c = ".." then acc.dropLast else acc ++ [c]) []

/-- `str(p)` for an absolute path given by its components. -/
def joinAbs (comps : List String) : String :=
  "/" ++ strJoin "/" comps

/-- `_resolve_safe` (main.py 256-264): strip separators, resolve against
`FILES_ROOT_PATH`, and accept iff `str(p).startswith(str(FILES_ROOT_PATH))`.
`none` models the raised `PermissionError("Path fuera de FILES_ROOT")`. -/
def resolveSafe (root : List String) (pathStr : String) : Option (List String) :=
  let comps := pathComponents (stripSeps pathStr)
  let p := normalizeComponents (root ++ comps)
  if isStrPrefix (joinAbs root) (joinAbs p) then some p else none

/-- The spec's containment requirement, in its own words: the resolved
path lies strictly under the canonical root, i.e. the root's component
list is a prefix of the resolved path's and the two differ. -/
def strictlyUnder (root p : List String) : Bool :=
  root.isPrefixOf p && p != root

/-! ## Lenient UTF-8 decoding

Python's `bytes.decode("utf-8", errors=...)` with the two error handlers
used by the repository: `"replace"` (files_read, main.py 431) substitutes
U+FFFD for each maximal invalid subpart, `"ignore"` (github_client.py 137)
drops it. Both are total. -/

/-- A UTF-8 continuation byte (`0x80..0xBF`). -/
def isContByte (b : Nat) : Bool := 0x80 ≤ b && b ≤ 0xBF

/-- Valid range of the first continuation byte of a 3-byte sequence
(excludes overlong forms and surrogates, as CPython does). -/
def cont1ok3 (b c1 : Nat) : Bool :=
  if b = 0xE0 then 0xA0 ≤ c1 && c1 ≤ 0xBF
  else if b = 0xED then 0x80 ≤ c1 && c1 ≤ 0x9F
  else isContByte c1

/-- Valid range of the first continuation byte of a 4-byte sequence
(excludes overlong forms and code points above U+10FFFF). -/
def cont1ok4 (b c1 : Nat) : Bool :=
  if b = 0xF0 then 0x90 ≤ c1 && c1 ≤ 0xBF
  else if b = 0xF4 then 0x80 ≤ c1 && c1 ≤ 0x8F
  else isContByte c1

/-- Emit for one invalid subpart: U+FFFD under `errors="replace"`,
nothing under `errors="ignore"`. -/
def utf8ErrOut (replaceMode : Bool) (rest : List Char) : List Char :=
  if replaceMode then Char.ofNat 0xFFFD :: rest else rest

/-- The incremental lenient UTF-8 decoder shared by both error handlers.
Every step consumes at least one byte, so running it with the byte count
as fuel (see `utf8DecodeAux`) decodes the whole input. -/
def utf8DecodeFuel (replaceMode : Bool) : Nat → List Nat → List Char
  | 0, _ => []
  | _, [] => []
  | fuel + 1, b :: bs =>
    if b < 0x80 then
      Char.ofNat b :: utf8DecodeFuel replaceMode fuel bs
    else if 0xC2 ≤ b && b ≤ 0xDF then
      match bs with
      | [] => utf8ErrOut replaceMode []
      | c1 :: bs1 =>
        if isContByte c1 then
          Char.ofNat ((b - 0xC0) * 0x40 + (c1 - 0x80)) :: utf8DecodeFuel replaceMode fuel bs1
        else utf8ErrOut replaceMode (utf8DecodeFuel replaceMode fuel bs)
    else if 0xE0 ≤ b && b ≤ 0xEF then
      match bs with
      | [] => utf8ErrOut replaceMode []
      | c1 :: bs1 =>
        if cont1ok3 b c1 then
          match bs1 with
          | [] => utf8ErrOut replaceMode []
          | c2 :: bs2 =>
            if isContByte c2 then
              Char.ofNat ((b - 0xE0) * 0x1000 + (c1 - 0x80) * 0x40 + (c2 - 0x80)) ::
                utf8DecodeFuel replaceMode fuel bs2
            else utf8ErrOut replaceMode (utf8DecodeFuel replaceMode fuel bs1)
        else utf8ErrOut replaceMode (utf8DecodeFuel replaceMode fuel bs)
    else if 0xF0 ≤ b && b ≤ 0xF4 then
      match bs with
      | [] => utf8ErrOut replaceMode []
      | c1 :: bs1 =>
        if cont1ok4 b c1 then
          match bs1 with
          | [] => utf8ErrOut replaceMode []
          | c2 :: bs2 =>
            if isContByte c2 then
              match bs2 with
              | [] => utf8ErrOut replaceMode []
              | c3 :: bs3 =>
                if isContByte c3 then
                  Char.ofNat ((b - 0xF0) * 0x40000 + (c1 - 0x80) * 0x1000 +
                      (c2 - 0x80) * 0x40 + (c3 - 0x80)) :: utf8DecodeFuel replaceMode fuel bs3
                else utf8ErrOut replaceMode (utf8DecodeFuel replaceMode fuel bs2)
            else utf8ErrOut replaceMode (utf8DecodeFuel replaceMode fuel bs1)
        else utf8ErrOut replaceMode (utf8DecodeFuel replaceMode fuel bs)
    else
      utf8ErrOut replaceMode (utf8DecodeFuel replaceMode fuel bs)

/-- Lenient UTF-8 decode of a whole byte string. -/
def utf8DecodeAux (replaceMode : Bool) (bs : List Nat) : List Char :=
  utf8DecodeFuel replaceMode bs.length bs

/-- `bytes.decode("utf-8", errors="replace")`. -/
def pyDecodeReplace (bs : List Nat) : String := String.mk (utf8DecodeAux true bs)

/-- `bytes.decode("utf-8", errors="ignore")`. -/
def pyDecodeIgnore (bs : List Nat) : String := String.mk (utf8DecodeAux false bs)

/-! ## Base64 (`base64.b64decode`, used by `github_get_file`) -/

/-- Value of a standard base64 alphabet character. -/
def b64val (c : Char) : Option Nat :=
  if 'A' ≤ c && c ≤ 'Z' then some (c.toNat - 65)
  else if 'a' ≤ c && c ≤ 'z' then some (c.toNat - 97 + 26)
  else if '0' ≤ c && c ≤ '9' then some (c.toNat - 48 + 52)
  else if c = '+' then some 62
  else if c = '/' then some 63
  else none

/-- Decode groups of four base64 characters into bytes; the final group
may carry one or two `=` padding characters. `none` models the
`binascii.Error` raised on malformed padding. -/
def b64quads : List Char → Option (List Nat)
  | [] => some []
  | a :: b :: c :: d :: rest =>
    match b64val a, b64val b with
    | some va, some vb =>
      if c = '=' then
        if d = '=' && rest.isEmpty then some [va * 4 + vb / 16] else none
      else
        match b64val c with
        | some vc =>
          if d = '=' then
            if rest.isEmpty then some [va * 4 + vb / 16, (vb % 16) * 16 + vc / 4] else none
          else
            match b64val d with
            | some vd =>
              (b64quads rest).map (fun tail =>
                (va * 4 + vb / 16) :: ((vb % 16) * 16 + vc / 4) :: ((vc % 4) * 64 + vd) :: tail)
            | none => none
        | none => none
    | _, _ => none
  | _ => none

/-- `base64.b64decode` with `validate=False`: characters outside the
alphabet (and outside padding) are discarded before decoding. -/
def b64decode (s : String) : Option (List Nat) :=
  b64quads (s.toList.filter (fun c => (b64val c).isSome || c == '='))

/-! ## Argument validation (the pydantic models of main.py 175-232)

The embedded validators follow pydantic's `BaseModel` semantics for these
models: a missing required field or an out-of-bound value raises
`ValidationError`; fields absent from input get their declared default;
fields not declared on the model are ignored (none of the models sets
`extra="forbid"`, so pydantic's default applies). -/

/-- Required string field. -/
def readStrReq (raw : RawArgs) (key : String) : Except String String :=
  match rawGet raw key with
  | some (JVal.str s) => Except.ok s
  | some _ => Except.error (key ++ " must be a string")
  | none => Except.error (key ++ " field required")

/-- Optional string field with a non-null default. -/
def readStrOptD (raw : RawArgs) (key : String) (dflt : String) : Except String String :=
  match rawGet raw key with
  | some (JVal.str s) => Except.ok s
  | some _ => Except.error (key ++ " must be a string")
  | none => Except.ok dflt

/-- `str | None = None` field. -/
def readStrOpt (raw : RawArgs) (key : String) : Except String (Option String) :=
  match rawGet raw key with
  | some (JVal.str s) => Except.ok (some s)
  | some JVal.null => Except.ok none
  | some _ => Except.error (key ++ " must be a string")
  | none => Except.ok none

/-- `list[str] | None = None` field. -/
def readStrListOpt (raw : RawArgs) (key : String) : Except String (Option (List String)) :=
  match rawGet raw key with
  | some (JVal.arr xs) =>
    (xs.mapM (fun v => match v with
        | JVal.str s => Except.ok s
        | _ => Except.error (key ++ " must be a list of strings"))).map some
  | some JVal.null => Except.ok none
  | some _ => Except.error (key ++ " must be a list of strings")
  | none => Except.ok none

/-- Optional boolean field with a default. -/
def readBoolOptD (raw : RawArgs) (key : String) (dflt : Bool) : Except String Bool :=
  match rawGet raw key with
  | some (JVal.bool b) => Except.ok b
  | some _ => Except.error (key ++ " must be a boolean")
  | none => Except.ok dflt

/-- Optional `Literal` string field: value must come from `allowed`. -/
def readEnumOptD (raw : RawArgs) (key : String) (dflt : String) (allowed : List String) :
    Except String String :=
  match rawGet raw key with
  | some (JVal.str s) =>
    if s ∈ allowed then Except.ok s else Except.error (key ++ " not an allowed value")
  | some _ => Except.error (key ++ " must be a string")
  | none => Except.ok dflt

/-- Optional integer field with `Field(default=dflt, ge=lo, le=hi)`
bounds; an out-of-range value is rejected (pydantic does not clamp). -/
def readIntOptD (raw : RawArgs) (key : String) (dflt : Int) (lo hi : Option Int) :
    Except String Int :=
  match rawGet raw key with
  | some (JVal.int n) =>
    if lo.all (fun l => decide (l ≤ n)) && hi.all (fun h => decide (n ≤ h)) then Except.ok n
    else Except.error (key ++ " out of range")
  | some _ => Except.error (key ++ " must be an integer")
  | none => Except.ok dflt

/-- `ListIssuesArgs` (main.py 179-185). -/
structure ListIssuesArgs where
  owner : String
  repo : String
  state : String
  labels : Option (List String)
  assignee : Option String
  limit : Int
deriving DecidableEq

/-- Validation of `ListIssuesArgs(**arguments)`. -/
def validateListIssues (raw : RawArgs) : Except String ListIssuesArgs := do
  let owner ← readStrReq raw "owner"
  let repo ← readStrReq raw "repo"
  let state ← readEnumOptD raw "state" "open" ["open", "closed", "all"]
  let labels ← readStrListOpt raw "labels"
  let assignee ← readStrOpt raw "assignee"
  let limit ← readIntOptD raw "limit" 20 (some 1) (some 100)
  pure ⟨owner, repo, state, labels, assignee, limit⟩

/-- `SearchIssuesArgs` (main.py 193-195). -/
structure SearchIssuesArgs where
  query : String
  limit : Int
deriving DecidableEq

/-- Validation of `SearchIssuesArgs(**arguments)`. -/
def validateSearchIssues (raw : RawArgs) : Except String SearchIssuesArgs := do
  let query ← readStrReq raw "query"
  let limit ← readIntOptD raw "limit" 20 (some 1) (some 100)
  pure ⟨query, limit⟩

/-- `FilesListArgs` (main.py 224-227). -/
structure FilesListArgs where
  path : String
  recursive : Bool
  limit : Int
deriving DecidableEq

/-- Validation of `FilesListArgs(**arguments)`. -/
def validateFilesList (raw : RawArgs) : Except String FilesListArgs := do
  let path ← readStrOptD raw "path" "."
  let recursive ← readBoolOptD raw "recursive" false
  let limit ← readIntOptD raw "limit" 200 (some 1) (some 5000)
  pure ⟨path, recursive, limit⟩

/-- `FilesReadArgs` (main.py 229-232). -/
structure FilesReadArgs where
  path : String
  offset : Int
  limit : Int
deriving DecidableEq

/-- Validation of `FilesReadArgs(**arguments)`. -/
def validateFilesRead (raw : RawArgs) : Except String FilesReadArgs := do
  let path ← readStrReq raw "path"
  let offset ← readIntOptD raw "offset" 0 (some 0) none
  let limit ← readIntOptD raw "limit" 65536 (some 1) (some 1048576)
  pure ⟨path, offset, limit⟩

/-! ## The except-chain of the `tools/call` handler (main.py 443-448) -/

/-- The exceptions that can escape the `try` block of `rpc`, tagged by the
Python class relevant to the `except` chain. `PermissionError` (raised by
`_resolve_safe`) and the timeout / connection errors raised by `aiohttp`
(`ServerTimeoutError`, `ClientConnectorError`, `asyncio.TimeoutError`) are
not subclasses of `pydantic.ValidationError` nor of
`aiohttp.ClientResponseError`, so they can only match `except Exception`. -/
inductive HandlerExc where
  | validationError (msg : String)
  | clientResponseError (status : Nat) (msg : String)
  | permissionError (msg : String)
  | timeoutError (msg : String)
  | otherError (msg : String)

/-- The `except` chain (main.py 443-448): JSON-RPC error code, error
message, HTTP status. -/
def classifyExc : HandlerExc → Int × String × Nat
  | HandlerExc.validationError m => (-32602, "Invalid params: " ++ m, 400)
  | HandlerExc.clientResponseError s m => (-32000, "GitHub HTTP " ++ toString s ++ ": " ++ m, 502)
  | HandlerExc.permissionError m => (-32001, "Unhandled error: " ++ m, 500)
  | HandlerExc.timeoutError m => (-32001, "Unhandled error: " ++ m, 500)
  | HandlerExc.otherError m => (-32001, "Unhandled error: " ++ m, 500)

/-! ## Filesystem adapter (`files_list` / `files_read`, main.py 378-438) -/

/-- What the sandboxed filesystem holds at a resolved path. -/
inductive FSEntry where
  | dir
  | file (bytes : List Nat)

/-- The `data` payload built by `files_read` (main.py 437):
`offset`/`end`/`size` are byte positions (`end_` embeds the key `"end"`,
a Lean keyword), `eof` is `end >= size`, `content` is the window decoded
with `errors="replace"`. -/
structure ReadPayload where
  path : String
  offset : Nat
  end_ : Nat
  size : Nat
  eof : Bool
  content : String
deriving DecidableEq

/-- The byte-window computation of `files_read` (main.py 427-437). -/
def filesReadPayload (path : String) (data : List Nat) (offset limit : Nat) : ReadPayload :=
  let size := data.length
  let start := min offset size
  let endPos := min (start + limit) size
  let chunk := pyDecodeReplace ((data.drop start).take (endPos - start))
  { path := path, offset := start, end_ := endPos, size := size,
    eof := decide (size ≤ endPos), content := chunk }

/-- Outcome of one `files_list` / `files_read` branch of `rpc`: either the
success `JSONResponse`, or an error `JSONResponse` (JSON-RPC code, message,
HTTP status) — whether built inline (404 / 400) or by the `except` chain. -/
inductive FsCallOutcome (α : Type) where
  | ok (a : α)
  | rpcError (code : Int) (msg : String) (http : Nat)

/-- The `files_read` branch (main.py 419-438) composed with the `except`
chain: validate, resolve inside the sandbox (a violation raises
`PermissionError`, which only `except Exception` catches), then map the
missing / non-file / file cases. -/
def filesReadRun (fs : List String → Option FSEntry) (root : List String) (raw : RawArgs) :
    FsCallOutcome ReadPayload :=
  match validateFilesRead raw with
  | Except.error m =>
    match classifyExc (HandlerExc.validationError m) with
    | (c, msg, h) => FsCallOutcome.rpcError c msg h
  | Except.ok a =>
    match resolveSafe root a.path with
    | none =>
      match classifyExc (HandlerExc.permissionError "Path fuera de FILES_ROOT") with
      | (c, msg, h) => FsCallOutcome.rpcError c msg h
    | some p =>
      match fs p with
      | none => FsCallOutcome.rpcError (-32000) ("No existe: " ++ a.path) 404
      | some FSEntry.dir => FsCallOutcome.rpcError (-32000) ("No es archivo: " ++ a.path) 400
      | some (FSEntry.file data) =>
        FsCallOutcome.ok (filesReadPayload a.path data a.offset.toNat a.limit.toNat)

/-- The `files_list` branch (main.py 378-417) composed with the `except`
chain, up to its error classification. The directory enumeration itself
(`os.walk` / `iterdir` bounded by `limit`) is not needed by any claim and
is elided: the success case carries no payload. -/
def filesListRun (fs : List String → Option FSEntry) (root : List String) (raw : RawArgs) :
    FsCallOutcome Unit :=
  match validateFilesList raw with
  | Except.error m =>
    match classifyExc (HandlerExc.validationError m) with
    | (c, msg, h) => FsCallOutcome.rpcError c msg h
  | Except.ok a =>
    match resolveSafe root a.path with
    | none =>
      match classifyExc (HandlerExc.permissionError "Path fuera de FILES_ROOT") with
      | (c, msg, h) => FsCallOutcome.rpcError c msg h
    | some p =>
      match fs p with
      | none => FsCallOutcome.rpcError (-32000) ("No existe: " ++ a.path) 404
      | some (FSEntry.file _) =>
        FsCallOutcome.rpcError (-32000) ("No es directorio: " ++ a.path) 400
      | some FSEntry.dir => FsCallOutcome.ok ()

/-! ## Local tools (`handle_tool`, main.py 208-222) -/

/-- One entry of the fixed in-memory `POKEDEX` table. -/
structure Pokemon where
  name : String
  types : List String
deriving DecidableEq

/-- `POKEDEX` (main.py 165-173). -/
def POKEDEX : List Pokemon :=
  [⟨"Pikachu", ["electric"]⟩,
   ⟨"Charizard", ["fire", "flying"]⟩,
   ⟨"Gyarados", ["water", "flying"]⟩,
   ⟨"Landorus-Therian", ["ground", "flying"]⟩,
   ⟨"Incineroar", ["fire", "dark"]⟩,
   ⟨"Amoonguss", ["grass", "poison"]⟩,
   ⟨"Iron Hands", ["fighting", "electric"]⟩]

/-- The pool built by `random_pokemon` (main.py 215):
`[p for p in POKEDEX if not t or t.lower() in p["types"]]`. A falsy
filter (absent, `None`, or the empty string) keeps every entry; otherwise
`in` on the `types` list is exact membership of the lowercased filter. -/
def pokemonPool (t? : Option String) : List Pokemon :=
  POKEDEX.filter (fun p =>
    match t? with
    | none => true
    | some t => t == "" || p.types.contains (pyLower t))

/-- The result dict of a tool: the single text content block, plus the
optional structured `data` attached by `mcp_text_result`. The `text` slot
keeps the raw JSON value Python would place there (`echo` copies its
argument unconverted). -/
structure ToolResult where
  text : JVal
  data? : Option JVal

/-- `random_pokemon` (main.py 213-219). `random.choice` picks a uniformly
random element of the non-empty pool; the draw is modelled by the index
`pick % pool.length`, universally quantified in the theorems. -/
def random_pokemon_tool (t? : Option String) (pick : Nat) : ToolResult :=
  match pokemonPool t? with
  | [] => { text := JVal.str "Sin coincidencias para ese tipo.", data? := none }
  | x :: xs =>
    let chosen := (x :: xs).getD (pick % (x :: xs).length) x
    { text := JVal.str ("Sorteo: " ++ chosen.name ++ " (" ++
        strJoin "/" chosen.types ++ ")"), data? := none }

/-- `args.get("type_filter")`, narrowed to the string / absent / null
cases the handler supports (a non-string value would fault in
`t.lower()`, outside the modelled behaviour). -/
def typeFilterOf (args : RawArgs) : Option String :=
  match rawGet args "type_filter" with
  | some (JVal.str s) => some s
  | _ => none

/-- `handle_tool` (main.py 208-222): `echo` and `random_pokemon` run with
no argument validation at all; `echo` defaults a missing `text` to `""`
via `args.get("text", "")` and ignores any other field. -/
def handle_tool (name : String) (args : RawArgs) (pick : Nat) : ToolResult :=
  if name = "echo" then
    { text := (rawGet args "text").getD (JVal.str ""), data? := none }
  else if name = "random_pokemon" then
    random_pokemon_tool (typeFilterOf args) pick
  else
    { text := JVal.str ("Herramienta desconocida: " ++ name), data? := none }

/-- Whether `n` occurs as a contiguous run inside `l`. -/
def charListInfix (n : List Char) : List Char → Bool
  | [] => n.isEmpty
  | c :: cs => n.isPrefixOf (c :: cs) || charListInfix n cs

/-- The spec's wording of the `random_pokemon` filter, for comparison:
case-insensitive *substring* match of the filter against the entry's
types. -/
def pokemonPoolSpec (t? : Option String) : List Pokemon :=
  POKEDEX.filter (fun p =>
    match t? with
    | none => true
    | some t => t == "" ||
        p.types.any (fun ty => charListInfix (pyLower t).toList (pyLower ty).toList))

/-! ## `github_get_file` content decoding (github_client.py 135-147) -/

/-- The content transformation of `GitHubClient.get_file`: base64-tagged
content is `base64.b64decode`d and then decoded as UTF-8 with
`errors="ignore"`; anything else passes through unchanged. `none` models
the `binascii.Error` escaping on malformed base64. -/
def getFileDecodedContent (encoding : Option String) (content : String) : Option String :=
  if encoding = some "base64" then (b64decode content).map pyDecodeIgnore
  else some content

/-- The spec's wording of the same transformation: lossy *substitution*
(`errors="replace"`) instead of deletion. -/
def getFileDecodedContentSpec (encoding : Option String) (content : String) : Option String :=
  if encoding = some "base64" then (b64decode content).map pyDecodeReplace
  else some content

/-! ## JSON-RPC transport (`rpc`, main.py 271-453) -/

/-- One inbound JSON-RPC envelope: `id?` is `none` exactly when the body
has no `"id"` key (`is_notification`), `method` is `body.get("method")`,
`params` is `body.get("params") or {}`. -/
structure Envelope where
  id? : Option JVal
  method : Option String
  params : RawArgs

/-- What `rpc` sends back: an empty `Response(status_code=204)`, a
`jsonrpc_result` body (carrying the `handle_tool` result when the tool is
one of the two synchronous ones), or a `jsonrpc_error` body with its
JSON-RPC code, message and HTTP status. -/
inductive RpcOut where
  | emptyAck (status : Nat)
  | resultBody (id : JVal) (res : Option ToolResult) (status : Nat)
  | errorBody (id : JVal) (code : Int) (msg : String) (status : Nat)

/-- The tool names dispatched to the aiohttp-backed branches of `rpc`
(main.py 315-438). -/
def githubFilesTools : List String :=
  ["github_repo_info", "github_list_issues", "github_get_file", "github_search_issues",
   "github_pr_status", "github_compare", "files_list", "files_read"]

/-- The `rpc` endpoint (main.py 271-453) after JSON parsing and the auth
check. The whole `try` block of a github/files tool (validation, adapter
I/O, response shaping) is abstracted by `adapter`; its escaping
exceptions are mapped by the `except` chain `classifyExc`, exactly as in
the source. Note which branches consult `is_notification`: only the final
unknown-method fallthrough does. -/
def rpc (env : Envelope) (pick : Nat) (adapter : Except HandlerExc Unit) : RpcOut :=
  let id := env.id?.getD JVal.null
  if env.method = some "initialize" then RpcOut.resultBody id none 200
  else if env.method = some "initialized" then RpcOut.emptyAck 204
  else if env.method = some "tools/list" then RpcOut.resultBody id none 200
  else if env.method = some "tools/call" then
    let name? : Option String :=
      match rawGet env.params "name" with
      | some (JVal.str s) => some s
      | _ => none
    let args : RawArgs :=
      match rawGet env.params "arguments" with
      | some (JVal.obj o) => o
      | _ => []
    match name? with
    | some n =>
      if n = "echo" ∨ n = "random_pokemon" then
        RpcOut.resultBody id (some (handle_tool n args pick)) 200
      else if n ∈ githubFilesTools then
        match adapter with
        | Except.ok _ => RpcOut.resultBody id none 200
        | Except.error e =>
          match classifyExc e with
          | (c, m, h) => RpcOut.errorBody id c m h
      else RpcOut.errorBody id (-32601) ("Tool not found: " ++ n) 400
    | none => RpcOut.errorBody id (-32601) "Tool not found: None" 400
  else if env.id?.isNone then RpcOut.emptyAck 204
  else RpcOut.errorBody id (-32601) "Method not found" 400

/-! ## Theorems -/

/-- C1: the containment check of `_resolve_safe` is a plain string-prefix
test on `str()` of the resolved path, so a sibling directory whose name
extends the root's name passes it. With root `/home/user/mcp_files`, the
caller path `../mcp_files_evil/secret.txt` resolves to
`/home/user/mcp_files_evil/secret.txt`, which is *not* strictly under the
root yet is accepted, and `files_read` then reads and serves the file —
contradicting the claim that every such path is rejected with a
sandbox-violation and no filesystem read. -/
theorem c1_sandbox_escape_read :
    resolveSafe ["home", "user", "mcp_files"] "../mcp_files_evil/secret.txt"
      = some ["home", "user", "mcp_files_evil", "secret.txt"]
    ∧ strictlyUnder ["home", "user", "mcp_files"]
        ["home", "user", "mcp_files_evil", "secret.txt"] = false
    ∧ filesReadRun
        (fun p => if p = ["home", "user", "mcp_files_evil", "secret.txt"]
          then some (FSEntry.file [104, 105]) else none)
        ["home", "user", "mcp_files"]
        [("path", JVal.str "../mcp_files_evil/secret.txt")]
      = FsCallOutcome.ok ⟨"../mcp_files_evil/secret.txt", 0, 2, 2, true, "hi"⟩ :=
  ⟨rfl, rfl, rfl⟩

/-- C2: `tools/call` does not validate the arguments of `echo`: a call
with no `text` succeeds with the empty string (never an invalid-params
failure), a field outside the declared schema is silently ignored — and
the pydantic-validated tools also drop unknown fields (no model forbids
extras), all contradicting the schemas the server itself declares
(`required: [text]`, `additionalProperties: false`). -/
theorem c2_echo_validation_bypass :
    handle_tool "echo" [] 0 = { text := JVal.str "", data? := none }
    ∧ handle_tool "echo" [("text", JVal.str "hi"), ("intruder", JVal.int 3)] 0
        = { text := JVal.str "hi", data? := none }
    ∧ validateFilesRead [("path", JVal.str "a.txt"), ("intruder", JVal.int 3)]
        = Except.ok ⟨"a.txt", 0, 65536⟩
    ∧ rpc ⟨some (JVal.int 1), some "tools/call",
          [("name", JVal.str "echo"), ("arguments", JVal.obj [])]⟩ 0 (Except.ok ())
        = RpcOut.resultBody (JVal.int 1) (some { text := JVal.str "", data? := none }) 200 :=
  ⟨rfl, rfl, rfl, rfl⟩

/-- C7 counterexample: the filter is *not* a substring match. The filter
string `"wat"` is a substring of the type `"water"` carried by Gyarados,
so the claimed semantics select Gyarados — but the code tests membership
of the whole lowercased filter in the `types` list, finds no entry, and
returns the fixed no-match text. -/
theorem c7_substring_no_match :
    random_pokemon_tool (some "wat") 0
      = { text := JVal.str "Sin coincidencias para ese tipo.", data? := none }
    ∧ pokemonPool (some "wat") = []
    ∧ pokemonPoolSpec (some "wat") = [⟨"Gyarados", ["water", "flying"]⟩] :=
  ⟨rfl, rfl, rfl⟩

/-- C7 amended: `random_pokemon` filters by case-insensitive *exact
membership* of `type_filter` in each entry's type list, picks a pool
element by the random draw, and returns the fixed no-match text on an
empty pool; with filter `"water"` (or `"Water"`) the pool is exactly the
single water-typed entry Gyarados, so every draw selects it. -/
theorem c7_type_filter_exact :
    (∀ pick : Nat, random_pokemon_tool (some "water") pick
      = { text := JVal.str "Sorteo: Gyarados (water/flying)", data? := none })
    ∧ pokemonPool (some "water") = [⟨"Gyarados", ["water", "flying"]⟩]
    ∧ (∀ pick : Nat, random_pokemon_tool (some "Water") pick
      = { text := JVal.str "Sorteo: Gyarados (water/flying)", data? := none })
    ∧ random_pokemon_tool (some "normal") 0
      = { text := JVal.str "Sin coincidencias para ese tipo.", data? := none }
    ∧ pokemonPool none = POKEDEX := by
  have hw : pokemonPool (some "water") = [⟨"Gyarados", ["water", "flying"]⟩] := rfl
  have hW : pokemonPool (some "Water") = [⟨"Gyarados", ["water", "flying"]⟩] := rfl
  refine ⟨fun pick => ?_, hw, fun pick => ?_, rfl, rfl⟩
  · unfold random_pokemon_tool
    rw [hw]
    simp [Nat.mod_one, strJoin]
  · unfold random_pokemon_tool
    rw [hW]
    simp [Nat.mod_one, strJoin]

/-- C8 counterexample: `github_get_file` decodes base64 content with
`errors="ignore"`, which *deletes* invalid bytes instead of substituting
U+FFFD. The base64 string `"/0E="` decodes to the bytes `0xFF 0x41`; the
code returns `"A"` (the invalid byte vanished) while the claimed lossy
substitution yields `"�A"`. -/
theorem c8_ignore_not_replace :
    getFileDecodedContent (some "base64") "/0E=" = some "A"
    ∧ getFileDecodedContentSpec (some "base64") "/0E=" = some "�A"
    ∧ ("A" : String) ≠ "�A" :=
  ⟨rfl, rfl, by decide⟩

/-- C8 amended: base64-tagged content is base64-decoded and then decoded
as UTF-8 with invalid bytes *dropped* (`errors="ignore"`); non-base64
content passes through unchanged. -/
theorem c8_get_file_decoding :
    (∀ c : String, getFileDecodedContent none c = some c)
    ∧ (∀ c : String, getFileDecodedContent (some "utf-8") c = some c)
    ∧ getFileDecodedContent (some "base64") "aGk=" = some "hi"
    ∧ getFileDecodedContent (some "base64") "/0E=" = some "A"
    ∧ pyDecodeIgnore [255, 65] = "A"
    ∧ pyDecodeReplace [255, 65] = "�A" :=
  ⟨fun _ => rfl, fun _ => rfl, rfl, rfl, rfl, rfl⟩

/-- C4 counterexample: an envelope with no `id` (a notification) whose
method is `tools/call` *does* receive a JSON-RPC error body when the tool
name is unknown — only the unknown-method fallthrough checks
`is_notification`. -/
theorem c4_notification_error_body :
    (⟨none, some "tools/call", [("name", JVal.str "mystery_tool")]⟩ : Envelope).id? = none
    ∧ rpc ⟨none, some "tools/call", [("name", JVal.str "mystery_tool")]⟩ 0 (Except.ok ())
        = RpcOut.errorBody JVal.null (-32601) "Tool not found: mystery_tool" 400 :=
  ⟨rfl, rfl⟩

/-- C5 counterexample: a transport/timeout failure is not an
`aiohttp.ClientResponseError`, so it falls through to `except Exception`
and surfaces as internal error `-32001` with HTTP 500 — not as the
upstream-failure code `-32000` with HTTP 502. -/
theorem c5_transport_not_502 :
    rpc ⟨some (JVal.int 7), some "tools/call", [("name", JVal.str "github_repo_info")]⟩ 0
        (Except.error (HandlerExc.timeoutError "TimeoutError"))
      = RpcOut.errorBody (JVal.int 7) (-32001) "Unhandled error: TimeoutError" 500
    ∧ ((-32001 : Int) ≠ -32000 ∧ (500 : Nat) ≠ 502) :=
  ⟨rfl, by decide, by decide⟩

/-- C6 counterexample: a sandbox violation raises `PermissionError`,
which only `except Exception` catches, so it surfaces as internal error
`-32001` with HTTP 500 — not as a resource error with 404/400. -/
theorem c6_sandbox_violation_500 :
    filesReadRun (fun _ => none) ["home", "user", "mcp_files"]
        [("path", JVal.str "../../etc/passwd")]
      = FsCallOutcome.rpcError (-32001) "Unhandled error: Path fuera de FILES_ROOT" 500
    ∧ ((500 : Nat) ≠ 404 ∧ (500 : Nat) ≠ 400) :=
  ⟨rfl, by decide, by decide⟩

/-- Helper: an integer field rejected by its declared bounds. -/
theorem readIntOptD_err (raw : RawArgs) (key : String) (dflt : Int) (lo hi : Option Int)
    (n : Int) (hk : rawGet raw key = some (JVal.int n))
    (hb : (lo.all (fun l => decide (l ≤ n)) && hi.all (fun h => decide (n ≤ h))) = false) :
    readIntOptD raw key dflt lo hi = Except.error (key ++ " out of range") := by
  unfold readIntOptD
  rw [hk]
  dsimp only
  rw [hb]
  rfl

/-- C3: for every valid `files_read` call on an existing file, the served
window is `[offset, offset+limit)` clamped to the file size; in the
returned payload `offset + (end - offset) ≤ size`, `eof` holds exactly
when the window reaches the file size, and the content is the lossy
(total) UTF-8 decoding of the windowed bytes. -/
theorem c3_read_window_bounds (path : String) (data : List Nat) (offset limit : Nat)
    (hlim : 1 ≤ limit) :
    (filesReadPayload path data offset limit).offset
        + ((filesReadPayload path data offset limit).end_
          - (filesReadPayload path data offset limit).offset)
      ≤ (filesReadPayload path data offset limit).size
    ∧ ((filesReadPayload path data offset limit).eof = true
        ↔ (filesReadPayload path data offset limit).offset
            + ((filesReadPayload path data offset limit).end_
              - (filesReadPayload path data offset limit).offset)
          = (filesReadPayload path data offset limit).size)
    ∧ (filesReadPayload path data offset limit).offset = min offset data.length
    ∧ (filesReadPayload path data offset limit).end_ = min (offset + limit) data.length
    ∧ (filesReadPayload path data offset limit).content
        = pyDecodeReplace ((data.drop (min offset data.length)).take
            (min (offset + limit) data.length - min offset data.length)) := by
  have hoff : (filesReadPayload path data offset limit).offset = min offset data.length := rfl
  have hend : (filesReadPayload path data offset limit).end_
      = min (min offset data.length + limit) data.length := rfl
  have hsize : (filesReadPayload path data offset limit).size = data.length := rfl
  have heof : (filesReadPayload path data offset limit).eof
      = decide (data.length ≤ min (min offset data.length + limit) data.length) := rfl
  have hcont : (filesReadPayload path data offset limit).content
      = pyDecodeReplace ((data.drop (min offset data.length)).take
          (min (min offset data.length + limit) data.length - min offset data.length)) := rfl
  have h4 : min (min offset data.length + limit) data.length
      = min (offset + limit) data.length := by omega
  refine ⟨?_, ?_, hoff, ?_, ?_⟩
  · rw [hoff, hend, hsize]; omega
  · rw [heof, hoff, hend, hsize]; simp only [decide_eq_true_eq]; omega
  · rw [hend, h4]
  · rw [hcont, h4]

/-- Witness for C3 at a concrete file and window. -/
theorem c3_read_window_bounds_witness :
    (1 : Nat) ≤ 1
    ∧ ((filesReadPayload "f" [104, 105, 106] 1 1).offset
          + ((filesReadPayload "f" [104, 105, 106] 1 1).end_
            - (filesReadPayload "f" [104, 105, 106] 1 1).offset)
        ≤ (filesReadPayload "f" [104, 105, 106] 1 1).size
      ∧ ((filesReadPayload "f" [104, 105, 106] 1 1).eof = true
          ↔ (filesReadPayload "f" [104, 105, 106] 1 1).offset
              + ((filesReadPayload "f" [104, 105, 106] 1 1).end_
                - (filesReadPayload "f" [104, 105, 106] 1 1).offset)
            = (filesReadPayload "f" [104, 105, 106] 1 1).size)
      ∧ (filesReadPayload "f" [104, 105, 106] 1 1).offset
          = min 1 ([104, 105, 106] : List Nat).length
      ∧ (filesReadPayload "f" [104, 105, 106] 1 1).end_
          = min (1 + 1) ([104, 105, 106] : List Nat).length
      ∧ (filesReadPayload "f" [104, 105, 106] 1 1).content
          = pyDecodeReplace ((([104, 105, 106] : List Nat).drop
                (min 1 ([104, 105, 106] : List Nat).length)).take
              (min (1 + 1) ([104, 105, 106] : List Nat).length
                - min 1 ([104, 105, 106] : List Nat).length))) :=
  ⟨Nat.le_refl 1, c3_read_window_bounds "f" [104, 105, 106] 1 1 (Nat.le_refl 1)⟩

/-- C10: a `files_read` call on an existing file whose offset is at or
past the file size succeeds with empty content, `eof = true`, and the
payload's `offset` clamped to the file size. -/
theorem c10_offset_past_eof (fs : List String → Option FSEntry) (root : List String)
    (raw : RawArgs) (a : FilesReadArgs) (p : List String) (data : List Nat)
    (hval : validateFilesRead raw = Except.ok a)
    (hres : resolveSafe root a.path = some p)
    (hfs : fs p = some (FSEntry.file data))
    (hoff : data.length ≤ a.offset.toNat) :
    filesReadRun fs root raw
      = FsCallOutcome.ok ⟨a.path, data.length, data.length, data.length, true, ""⟩ := by
  unfold filesReadRun
  rw [hval]
  dsimp only
  rw [hres]
  dsimp only
  rw [hfs]
  dsimp only
  have h1 : min a.offset.toNat data.length = data.length := by omega
  have h2 : min (data.length + a.limit.toNat) data.length = data.length := by omega
  have hempty : pyDecodeReplace [] = "" := rfl
  simp only [filesReadPayload]
  rw [h1, h2]
  simp [Nat.sub_self, List.drop_length, hempty]

/-- Witness for C10: reading one byte past its end. -/
theorem c10_offset_past_eof_witness :
    validateFilesRead [("path", JVal.str "a.txt"), ("offset", JVal.int 5)]
      = Except.ok ⟨"a.txt", 5, 65536⟩
    ∧ resolveSafe ["root"] "a.txt" = some ["root", "a.txt"]
    ∧ (fun q => if q = ["root", "a.txt"] then some (FSEntry.file [104]) else none)
        ["root", "a.txt"] = some (FSEntry.file [104])
    ∧ ([104] : List Nat).length ≤ (5 : Int).toNat
    ∧ filesReadRun
        (fun q => if q = ["root", "a.txt"] then some (FSEntry.file [104]) else none)
        ["root"] [("path", JVal.str "a.txt"), ("offset", JVal.int 5)]
      = FsCallOutcome.ok ⟨"a.txt", 1, 1, 1, true, ""⟩ :=
  ⟨rfl, rfl, rfl, by decide,
    c10_offset_past_eof
      (fun q => if q = ["root", "a.txt"] then some (FSEntry.file [104]) else none)
      ["root"] [("path", JVal.str "a.txt"), ("offset", JVal.int 5)]
      ⟨"a.txt", 5, 65536⟩ ["root", "a.txt"] [104] rfl rfl rfl (by decide)⟩

/-- C4 amended: only the unknown-method fallthrough honours the
notification rule — an envelope with no `id` and a method other than the
four recognised ones is answered by an empty 204 acknowledgement with no
error body. (`tools/call` envelopes are answered with result or error
bodies regardless of `id`, as `c4_notification_error_body` shows.) -/
theorem c4_unknown_method_silent (env : Envelope) (pick : Nat)
    (adapter : Except HandlerExc Unit) (h0 : env.id? = none)
    (h1 : env.method ≠ some "initialize") (h2 : env.method ≠ some "initialized")
    (h3 : env.method ≠ some "tools/list") (h4 : env.method ≠ some "tools/call") :
    rpc env pick adapter = RpcOut.emptyAck 204 := by
  simp [rpc, h0, h1, h2, h3, h4]

/-- Witness for C4 at a concrete unknown-method notification. -/
theorem c4_unknown_method_silent_witness :
    (⟨none, some "mystery/method", []⟩ : Envelope).id? = none
    ∧ rpc ⟨none, some "mystery/method", []⟩ 0 (Except.ok ()) = RpcOut.emptyAck 204 :=
  ⟨rfl, c4_unknown_method_silent _ 0 _ rfl (by decide) (by decide) (by decide) (by decide)⟩

/-- C5 amended: for every remote-adapter tool, an upstream non-2xx
response (`aiohttp.ClientResponseError`) surfaces as code `-32000` with
HTTP 502, while a transport/timeout failure falls to `except Exception`
and surfaces as internal error `-32001` with HTTP 500 — the two are not
classified identically. -/
theorem c5_failure_classification (n : String) (hn : n ∈ githubFilesTools)
    (idv : JVal) (pick : Nat) (s : Nat) (m mt : String) :
    rpc ⟨some idv, some "tools/call", [("name", JVal.str n)]⟩ pick
        (Except.error (HandlerExc.clientResponseError s m))
      = RpcOut.errorBody idv (-32000) ("GitHub HTTP " ++ toString s ++ ": " ++ m) 502
    ∧ rpc ⟨some idv, some "tools/call", [("name", JVal.str n)]⟩ pick
        (Except.error (HandlerExc.timeoutError mt))
      = RpcOut.errorBody idv (-32001) ("Unhandled error: " ++ mt) 500 := by
  fin_cases hn <;> exact ⟨rfl, rfl⟩

/-- Witness for C5 at `github_repo_info` with a 503 and a timeout. -/
theorem c5_failure_classification_witness :
    ("github_repo_info" ∈ githubFilesTools)
    ∧ (rpc ⟨some (JVal.int 1), some "tools/call", [("name", JVal.str "github_repo_info")]⟩ 0
          (Except.error (HandlerExc.clientResponseError 503 "Service Unavailable"))
        = RpcOut.errorBody (JVal.int 1) (-32000)
            ("GitHub HTTP " ++ toString (503 : Nat) ++ ": " ++ "Service Unavailable") 502
      ∧ rpc ⟨some (JVal.int 1), some "tools/call", [("name", JVal.str "github_repo_info")]⟩ 0
          (Except.error (HandlerExc.timeoutError "x"))
        = RpcOut.errorBody (JVal.int 1) (-32001) ("Unhandled error: " ++ "x") 500) :=
  ⟨by decide,
    c5_failure_classification "github_repo_info" (by decide) (JVal.int 1) 0 503
      "Service Unavailable" "x"⟩

/-- C6 amended: in `files_read` and `files_list`, a non-existent path
surfaces as resource error `-32000` with HTTP 404 and an
existing-but-wrong-kind path as `-32000` with HTTP 400, but a sandbox
violation escapes as `PermissionError` to the generic handler and
surfaces as internal error `-32001` with HTTP 500. -/
theorem c6_resource_error_mapping :
    (∀ (fs : List String → Option FSEntry) (root : List String) (raw : RawArgs)
        (a : FilesReadArgs), validateFilesRead raw = Except.ok a →
        resolveSafe root a.path = none →
        filesReadRun fs root raw
          = FsCallOutcome.rpcError (-32001) "Unhandled error: Path fuera de FILES_ROOT" 500)
    ∧ (∀ (fs : List String → Option FSEntry) (root : List String) (raw : RawArgs)
        (a : FilesReadArgs) (p : List String), validateFilesRead raw = Except.ok a →
        resolveSafe root a.path = some p → fs p = none →
        filesReadRun fs root raw
          = FsCallOutcome.rpcError (-32000) ("No existe: " ++ a.path) 404)
    ∧ (∀ (fs : List String → Option FSEntry) (root : List String) (raw : RawArgs)
        (a : FilesReadArgs) (p : List String), validateFilesRead raw = Except.ok a →
        resolveSafe root a.path = some p → fs p = some FSEntry.dir →
        filesReadRun fs root raw
          = FsCallOutcome.rpcError (-32000) ("No es archivo: " ++ a.path) 400)
    ∧ (∀ (fs : List String → Option FSEntry) (root : List String) (raw : RawArgs)
        (a : FilesListArgs), validateFilesList raw = Except.ok a →
        resolveSafe root a.path = none →
        filesListRun fs root raw
          = FsCallOutcome.rpcError (-32001) "Unhandled error: Path fuera de FILES_ROOT" 500)
    ∧ (∀ (fs : List String → Option FSEntry) (root : List String) (raw : RawArgs)
        (a : FilesListArgs) (p : List String), validateFilesList raw = Except.ok a →
        resolveSafe root a.path = some p → fs p = none →
        filesListRun fs root raw
          = FsCallOutcome.rpcError (-32000) ("No existe: " ++ a.path) 404)
    ∧ (∀ (fs : List String → Option FSEntry) (root : List String) (raw : RawArgs)
        (a : FilesListArgs) (p : List String) (d : List Nat),
        validateFilesList raw = Except.ok a →
        resolveSafe root a.path = some p → fs p = some (FSEntry.file d) →
        filesListRun fs root raw
          = FsCallOutcome.rpcError (-32000) ("No es directorio: " ++ a.path) 400) := by
  refine ⟨?_, ?_, ?_, ?_, ?_, ?_⟩
  · intro fs root raw a h1 h2
    simp [filesReadRun, classifyExc, h1, h2]
  · intro fs root raw a p h1 h2 h3
    simp [filesReadRun, classifyExc, h1, h2, h3]
  · intro fs root raw a p h1 h2 h3
    simp [filesReadRun, classifyExc, h1, h2, h3]
  · intro fs root raw a h1 h2
    simp [filesListRun, classifyExc, h1, h2]
  · intro fs root raw a p h1 h2 h3
    simp [filesListRun, classifyExc, h1, h2, h3]
  · intro fs root raw a p d h1 h2 h3
    simp [filesListRun, classifyExc, h1, h2, h3]

/-- Witness for C6 at a concrete escaping path. -/
theorem c6_resource_error_mapping_witness :
    validateFilesRead [("path", JVal.str "../../x")] = Except.ok ⟨"../../x", 0, 65536⟩
    ∧ resolveSafe ["r"] "../../x" = none
    ∧ filesReadRun (fun _ => none) ["r"] [("path", JVal.str "../../x")]
      = FsCallOutcome.rpcError (-32001) "Unhandled error: Path fuera de FILES_ROOT" 500 :=
  ⟨rfl, rfl, c6_resource_error_mapping.1 (fun _ => none) ["r"] _ ⟨"../../x", 0, 65536⟩ rfl rfl⟩

/-- C9 counterexample: an out-of-range limit is *not* clamped into
`[1, maximum]` — pydantic's `ge`/`le` constraints reject it, so the call
fails with a validation error instead of succeeding with a clamped
value. -/
theorem c9_limit_not_clamped :
    validateFilesRead [("path", JVal.str "a.txt"), ("limit", JVal.int 0)]
      = Except.error "limit out of range"
    ∧ validateListIssues [("owner", JVal.str "o"), ("repo", JVal.str "r"),
          ("limit", JVal.int 101)]
      = Except.error "limit out of range" :=
  ⟨rfl, rfl⟩

/-- C9 amended: an absent `limit` receives its declared default (20 for
the issue tools, 200 for `files_list`, 65536 for `files_read`), but a
supplied out-of-range limit is rejected with an invalid-params validation
error, not clamped. -/
theorem c9_limit_defaults_and_rejection :
    (∀ o r : String, validateListIssues [("owner", JVal.str o), ("repo", JVal.str r)]
      = Except.ok ⟨o, r, "open", none, none, 20⟩)
    ∧ (∀ q : String, validateSearchIssues [("query", JVal.str q)] = Except.ok ⟨q, 20⟩)
    ∧ validateFilesList [] = Except.ok ⟨".", false, 200⟩
    ∧ (∀ p : String, validateFilesRead [("path", JVal.str p)] = Except.ok ⟨p, 0, 65536⟩)
    ∧ (∀ n : Int, n < 1 ∨ 100 < n →
        validateListIssues [("owner", JVal.str "o"), ("repo", JVal.str "r"),
            ("limit", JVal.int n)]
          = Except.error "limit out of range")
    ∧ (∀ n : Int, n < 1 ∨ 100 < n →
        validateSearchIssues [("query", JVal.str "q"), ("limit", JVal.int n)]
          = Except.error "limit out of range")
    ∧ (∀ n : Int, n < 1 ∨ 5000 < n →
        validateFilesList [("limit", JVal.int n)] = Except.error "limit out of range")
    ∧ (∀ n : Int, n < 1 ∨ 1048576 < n →
        validateFilesRead [("path", JVal.str "p"), ("limit", JVal.int n)]
          = Except.error "limit out of range") := by
  refine ⟨fun o r => rfl, fun q => rfl, rfl, fun p => rfl, ?_, ?_, ?_, ?_⟩
  · intro n h
    have e : validateListIssues [("owner", JVal.str "o"), ("repo", JVal.str "r"),
          ("limit", JVal.int n)]
        = Except.bind (readIntOptD [("owner", JVal.str "o"), ("repo", JVal.str "r"),
            ("limit", JVal.int n)] "limit" 20 (some 1) (some 100))
          (fun limit => Except.ok ⟨"o", "r", "open", none, none, limit⟩) := rfl
    rw [e, readIntOptD_err [("owner", JVal.str "o"), ("repo", JVal.str "r"),
        ("limit", JVal.int n)] "limit" 20 (some 1) (some 100) n rfl
      (by rcases h with h | h <;> simp <;> omega)]
    rfl
  · intro n h
    have e : validateSearchIssues [("query", JVal.str "q"), ("limit", JVal.int n)]
        = Except.bind (readIntOptD [("query", JVal.str "q"), ("limit", JVal.int n)]
            "limit" 20 (some 1) (some 100))
          (fun limit => Except.ok ⟨"q", limit⟩) := rfl
    rw [e, readIntOptD_err [("query", JVal.str "q"), ("limit", JVal.int n)]
        "limit" 20 (some 1) (some 100) n rfl
      (by rcases h with h | h <;> simp <;> omega)]
    rfl
  · intro n h
    have e : validateFilesList [("limit", JVal.int n)]
        = Except.bind (readIntOptD [("limit", JVal.int n)] "limit" 200 (some 1) (some 5000))
          (fun limit => Except.ok ⟨".", false, limit⟩) := rfl
    rw [e, readIntOptD_err [("limit", JVal.int n)] "limit" 200 (some 1) (some 5000) n rfl
      (by rcases h with h | h <;> simp <;> omega)]
    rfl
  · intro n h
    have e : validateFilesRead [("path", JVal.str "p"), ("limit", JVal.int n)]
        = Except.bind (readIntOptD [("path", JVal.str "p"), ("limit", JVal.int n)]
            "limit" 65536 (some 1) (some 1048576))
          (fun limit => Except.ok ⟨"p", 0, limit⟩) := rfl
    rw [e, readIntOptD_err [("path", JVal.str "p"), ("limit", JVal.int n)]
        "limit" 65536 (some 1) (some 1048576) n rfl
      (by rcases h with h | h <;> simp <;> omega)]
    rfl

/-- Witness for C9 at limit 101 on `github_list_issues`. -/
theorem c9_limit_defaults_and_rejection_witness :
    ((101 : Int) < 1 ∨ (100 : Int) < 101)
    ∧ validateListIssues [("owner", JVal.str "o"), ("repo", JVal.str "r"),
          ("limit", JVal.int 101)]
      = Except.error "limit out of range" :=
  ⟨Or.inr (by decide),
    c9_limit_defaults_and_rejection.2.2.2.2.1 101 (Or.inr (by decide))⟩

end MCPServer
